import Mathlib

/-!
# Verification of the Aphex CMS authentication boundary

A shallow embedding of the `AuthProvider` boundary documented in
`AUTH.md`: the canonical `SessionAuth` / `ApiKeyAuth` shapes
(`packages/cms-core/src/types.ts`, quoted at AUTH.md:452-484), the
Better Auth adapter (AUTH.md:392-428), the Clerk adapter's
`validateApiKey` / `requireSession` / `requireApiKey`
(AUTH.md:540-598), and the sign-up user-profile sync hook
(AUTH.md:373-384).

TypeScript objects become Lean structures with the source's field
names; `X | null` becomes `Option X`; a `Promise` that can reject
becomes `Except`; the identity provider (Better Auth's `auth.api`, the
Clerk adapter's database) is an explicit argument, so "unchanged
provider state" is literal argument equality.
-/

namespace Aphex

/-- A permission literal of the TypeScript union type `'read' | 'write'`
(AUTH.md:460, AUTH.md:481). -/
inductive Perm where
  | read
  | write
deriving DecidableEq, Repr

/-- The `user` part of `SessionAuth` (AUTH.md:465-470): `{ id, email,
name?, image? }`. -/
structure SessionUser where
  id : String
  email : String
  name : Option String
  image : Option String
deriving DecidableEq, Repr

/-- The `session` part of `SessionAuth` (AUTH.md:471-474): `{ id,
expiresAt }`; the `Date` is a timestamp. -/
structure SessionInfo where
  id : String
  expiresAt : Nat
deriving DecidableEq, Repr

/-- `SessionAuth` (AUTH.md:463-475). The discriminant property is named
`type` in the source and always holds the literal `'session'`. -/
structure SessionAuth where
  type : String
  user : SessionUser
  session : SessionInfo
deriving DecidableEq, Repr

/-- `ApiKeyAuth` (AUTH.md:477-484): `{ type: 'api_key', keyId, name,
permissions, lastUsedAt? }`. -/
structure ApiKeyAuth where
  type : String
  keyId : String
  name : String
  permissions : List Perm
  lastUsedAt : Option Nat
deriving DecidableEq, Repr

/-- The property names of the `SessionAuth` interface as declared in the
source (AUTH.md:463-475), in declaration order. -/
def SessionAuth.fieldNames : List String :=
  ["type", "user", "session"]

/-- The property names of the `ApiKeyAuth` interface as declared in the
source (AUTH.md:477-484), in declaration order. -/
def ApiKeyAuth.fieldNames : List String :=
  ["type", "keyId", "name", "permissions", "lastUsedAt"]

/-- An inbound HTTP request: a header map. `request.headers.get(h)`
is association-list lookup. -/
structure Request where
  headers : List (String × String)
deriving DecidableEq, Repr

/-- `request.headers.get(name)`: the value of the first header with the
given name, or `null`. -/
def Request.getHeader (request : Request) (name : String) : Option String :=
  (request.headers.find? (fun p => p.1 = name)).map (fun p => p.2)

/-- Errors observable at the auth boundary. `unauthorized` and
`forbidden` embed `throw new Error('Unauthorized')` and
`throw new Error('Forbidden')` (AUTH.md:567, AUTH.md:592-594);
`providerError` is a failure raised by the identity provider itself
(a rejected provider call) carrying its provider-specific payload. -/
inductive AuthError where
  | unauthorized
  | forbidden
  | providerError : String → AuthError
deriving DecidableEq, Repr

/-- `true` on the two error values the boundary contract itself names;
`false` on a provider-specific error. -/
def AuthError.isBoundary : AuthError → Bool
  | .unauthorized => true
  | .forbidden => true
  | .providerError _ => false

/-- The `user` object of a Better Auth `getSession` result
(AUTH.md:398-404): `name` and `image` are nullable columns
(AUTH.md:315-323). -/
structure BASessionUser where
  id : String
  email : String
  name : Option String
  image : Option String
deriving DecidableEq, Repr

/-- The `session` object of a Better Auth `getSession` result
(AUTH.md:405-408). -/
structure BASessionData where
  id : String
  expiresAt : Nat
deriving DecidableEq, Repr

/-- A non-null Better Auth `auth.api.getSession` result: `{ user,
session }` (AUTH.md:394-408). -/
structure BASessionResult where
  user : BASessionUser
  session : BASessionData
deriving DecidableEq, Repr

/-- A row of Better Auth's `apikey` table as seen in a `verifyApiKey`
result (AUTH.md:332-341, AUTH.md:421-422): `name` is a nullable text
column, `permissions` is a nullable column holding the stored
permission set. The adapter reads only `id` and `name`; the stored
permission set is never consulted. -/
structure BAKey where
  id : String
  name : Option String
  permissions : Option (List Perm)
deriving DecidableEq, Repr

/-- The result of `auth.api.verifyApiKey` (AUTH.md:416-417): a `valid`
flag plus the matched key record. -/
structure BAVerifyResult where
  valid : Bool
  key : BAKey
deriving DecidableEq, Repr

/-- The Better Auth instance `auth.api` as the adapter uses it
(AUTH.md:394, AUTH.md:416): one call validating the request headers
into a session, one call validating a presented key string. Each call
is a `Promise` that may reject with a provider-specific error,
embedded as `Except String`. -/
structure BetterAuthApi where
  getSession : List (String × String) → Except String (Option BASessionResult)
  verifyApiKey : String → Except String BAVerifyResult

/-- JavaScript `s || d` on a nullable string `s` (AUTH.md:422):
both `null` and the empty string are falsy. -/
def jsStringOr (s : Option String) (d : String) : String :=
  match s with
  | none => d
  | some v => if v = "" then d else v

namespace BetterAuth

/-- The Better Auth adapter's `getSession` (AUTH.md:393-410): forwards
the request headers to `auth.api.getSession`, returns `null` when the
provider does, and otherwise maps the provider objects into a
`SessionAuth`. The provider call is not guarded by a `try`/`catch`, so
a rejected call propagates. -/
def getSession (api : BetterAuthApi) (request : Request) :
    Except AuthError (Option SessionAuth) :=
  match api.getSession request.headers with
  | .error e => .error (.providerError e)
  | .ok none => .ok none
  | .ok (some s) =>
      .ok (some
        { type := "session"
          user :=
            { id := s.user.id
              email := s.user.email
              name := s.user.name
              image := s.user.image }
          session :=
            { id := s.session.id
              expiresAt := s.session.expiresAt } })

/-- The Better Auth adapter's `validateApiKey` (AUTH.md:412-425): reads
the `x-api-key` header (`null` when missing), asks the provider to
verify the presented key, returns `null` when the result is not valid,
and otherwise builds an `ApiKeyAuth` with `name: result.key.name ||
'Unnamed Key'` and the hard-coded permission list `['read', 'write']`.
The provider call is not guarded by a `try`/`catch`. -/
def validateApiKey (api : BetterAuthApi) (request : Request) :
    Except AuthError (Option ApiKeyAuth) :=
  match request.getHeader "x-api-key" with
  | none => .ok none
  | some apiKeyHeader =>
      match api.verifyApiKey apiKeyHeader with
      | .error e => .error (.providerError e)
      | .ok result =>
          if !result.valid then .ok none
          else
            .ok (some
              { type := "api_key"
                keyId := result.key.id
                name := jsStringOr result.key.name "Unnamed Key"
                permissions := [Perm.read, Perm.write]
                lastUsedAt := none })

end BetterAuth

/-- `requireSession` as written in the Clerk adapter (AUTH.md:565-569),
with `this.getSession` as an explicit parameter: resolve the session,
throw `Error('Unauthorized')` when it is `null`, otherwise return it.
The Better Auth adapter's `requireSession` is elided in the source
(AUTH.md:427); it instantiates this same logic, which is also what the
spec prescribes for every adapter. -/
def requireSessionWith
    (getSession : Request → Except AuthError (Option SessionAuth))
    (request : Request) : Except AuthError SessionAuth :=
  match getSession request with
  | .error e => .error e
  | .ok none => .error .unauthorized
  | .ok (some session) => .ok session

/-- `requireApiKey` as written in the Clerk adapter (AUTH.md:590-598),
with `this.validateApiKey` as an explicit parameter: resolve the key,
throw `Error('Unauthorized')` when it is `null`, throw
`Error('Forbidden')` when a permission argument is supplied and is not
in the key's permission list, otherwise return the key. The Better
Auth adapter's `requireApiKey` is elided in the source (AUTH.md:427);
it instantiates this same logic, which is also what the spec
prescribes for every adapter. -/
def requireApiKeyWith
    (validateApiKey : Request → Except AuthError (Option ApiKeyAuth))
    (request : Request) (permission : Option Perm) :
    Except AuthError ApiKeyAuth :=
  match validateApiKey request with
  | .error e => .error e
  | .ok none => .error .unauthorized
  | .ok (some apiKey) =>
      match permission with
      | some p =>
          if ¬ (p ∈ apiKey.permissions) then .error .forbidden
          else .ok apiKey
      | none => .ok apiKey

/-- A row of the `api_keys` table the Clerk migration example queries
(AUTH.md:576-587, AUTH.md:738-744): the stored permission list is the
one returned to the caller. -/
structure ApiKeyRecord where
  id : String
  key : String
  name : String
  permissions : List Perm
deriving DecidableEq, Repr

/-- The database the Clerk adapter's `validateApiKey` consults:
`db.query.apiKeys.findFirst({ where: eq(apiKeys.key, apiKey) })` is a
first-match lookup over the stored rows. -/
structure ClerkDb where
  apiKeys : List ApiKeyRecord
deriving DecidableEq, Repr

namespace Clerk

/-- The Clerk adapter's `validateApiKey` (AUTH.md:571-588): reads the
`x-api-key` header, looks the presented key up in the `api_keys`
table, returns `null` when the header is missing or no row matches,
and otherwise builds an `ApiKeyAuth` carrying the stored `id`, `name`
and `permissions` of the matched row. -/
def validateApiKey (db : ClerkDb) (request : Request) :
    Except AuthError (Option ApiKeyAuth) :=
  match request.getHeader "x-api-key" with
  | none => .ok none
  | some apiKey =>
      match db.apiKeys.find? (fun k => k.key = apiKey) with
      | none => .ok none
      | some key =>
          .ok (some
            { type := "api_key"
              keyId := key.id
              name := key.name
              permissions := key.permissions
              lastUsedAt := none })

end Clerk

/-- Two successive `getSession` calls of the Better Auth adapter on the
same request against the same provider instance (unchanged
identity-provider state). -/
def getSessionTwice (api : BetterAuthApi) (request : Request) :
    Except AuthError (Option SessionAuth) × Except AuthError (Option SessionAuth) :=
  (BetterAuth.getSession api request, BetterAuth.getSession api request)

/-- A row of the CMS-owned `cms_user_profiles` table (AUTH.md:347-352):
`{ userId, role, preferences }`. -/
structure UserProfile where
  userId : String
  role : String
  preferences : Option String
deriving DecidableEq, Repr

/-- The `ctx.context.user` object available to the after hook: the
freshly created user (AUTH.md:376). -/
structure CtxUser where
  id : String
deriving DecidableEq, Repr

/-- The hook context `ctx` (AUTH.md:374-376): the auth path that just
ran and the created user, if any. -/
structure AuthCtx where
  path : String
  user : Option CtxUser
deriving DecidableEq, Repr

/-- The `hooks.after` middleware of the Better Auth configuration
(AUTH.md:373-384): when the path is `/sign-up/email` and a user was
created, insert `{ userId, role: 'editor' }` into `cms_user_profiles`;
otherwise leave the table unchanged. The table is a row list and
`db.insert` appends. -/
def afterHook (ctx : AuthCtx) (profiles : List UserProfile) : List UserProfile :=
  match ctx.user with
  | some user =>
      if ctx.path = "/sign-up/email" then
        profiles ++ [{ userId := user.id, role := "editor", preferences := none }]
      else profiles
  | none => profiles

/-- The rows `afterHook` adds, independently of the existing table
contents: a single `editor` profile on email sign-up, nothing
otherwise. -/
def afterHookInserted (ctx : AuthCtx) : List UserProfile :=
  match ctx.user with
  | some user =>
      if ctx.path = "/sign-up/email" then
        [{ userId := user.id, role := "editor", preferences := none }]
      else []
  | none => []

/-! ## Concrete fixtures

Concrete provider states and requests used to instantiate the
theorems below on executable inputs. -/

/-- A stored Better Auth key record whose permission set is exactly
read-only. -/
def baReadKey : BAKey :=
  { id := "k1", name := some "demo key", permissions := some [Perm.read] }

/-- A junk key record returned alongside `valid: false`. -/
def baInvalidKey : BAKey :=
  { id := "", name := none, permissions := none }

/-- A Better Auth instance holding no sessions and exactly one valid
API key, `abc123`, bound to the read-only record `baReadKey`. All its
calls return (none rejects). -/
def baDemoApi : BetterAuthApi :=
  { getSession := fun _ => .ok none
  , verifyApiKey := fun key =>
      if key = "abc123" then .ok { valid := true, key := baReadKey }
      else .ok { valid := false, key := baInvalidKey } }

/-- A request presenting the API key `abc123` and nothing else. -/
def demoKeyRequest : Request := { headers := [("x-api-key", "abc123")] }

/-- A request presenting no credential at all. -/
def emptyRequest : Request := { headers := [] }

/-- The `ApiKeyAuth` the Better Auth adapter builds for `abc123`:
hard-coded read and write permissions. -/
def baDemoAuth : ApiKeyAuth :=
  { type := "api_key", keyId := "k1", name := "demo key"
  , permissions := [Perm.read, Perm.write], lastUsedAt := none }

/-- A Better Auth instance whose calls all reject with a
provider-specific network error. -/
def failingApi : BetterAuthApi :=
  { getSession := fun _ => .error "ECONNREFUSED"
  , verifyApiKey := fun _ => .error "ECONNREFUSED" }

/-- A provider session result for user `u1`. -/
def demoSession : BASessionResult :=
  { user := { id := "u1", email := "u1@example.test", name := some "User One", image := none }
  , session := { id := "s1", expiresAt := 1700000000 } }

/-- A Better Auth instance that resolves `demoSession` for any request
carrying a `cookie` header and no session otherwise; it knows no API
keys. -/
def sessionApi : BetterAuthApi :=
  { getSession := fun headers =>
      if (headers.find? (fun p => p.1 = "cookie")).isSome then .ok (some demoSession)
      else .ok none
  , verifyApiKey := fun _ => .ok { valid := false, key := baInvalidKey } }

/-- A request carrying a session cookie. -/
def sessionRequest : Request := { headers := [("cookie", "sid=tok1")] }

/-- The `SessionAuth` the Better Auth adapter builds from
`demoSession`. -/
def demoSessionAuth : SessionAuth :=
  { type := "session"
  , user := { id := "u1", email := "u1@example.test", name := some "User One", image := none }
  , session := { id := "s1", expiresAt := 1700000000 } }

/-- A stored `api_keys` row for the Clerk adapter: key string `abc123`,
permission set exactly read-only. -/
def readKeyRecord : ApiKeyRecord :=
  { id := "k1", key := "abc123", name := "demo key", permissions := [Perm.read] }

/-- A stored `api_keys` row with an empty permission set. -/
def emptyPermRecord : ApiKeyRecord :=
  { id := "k2", key := "nope77", name := "no perms", permissions := [] }

/-- A Clerk-adapter database holding the two demo key rows. -/
def demoDb : ClerkDb := { apiKeys := [readKeyRecord, emptyPermRecord] }

/-- A request presenting the empty-permission API key `nope77`. -/
def emptyPermRequest : Request := { headers := [("x-api-key", "nope77")] }

/-- The `ApiKeyAuth` the Clerk adapter builds for `abc123`: the stored
read-only permission list. -/
def clerkDemoAuth : ApiKeyAuth :=
  { type := "api_key", keyId := "k1", name := "demo key"
  , permissions := [Perm.read], lastUsedAt := none }

/-- The `ApiKeyAuth` the Clerk adapter builds for `nope77`: an empty
permission list. -/
def clerkEmptyPermAuth : ApiKeyAuth :=
  { type := "api_key", keyId := "k2", name := "no perms"
  , permissions := [], lastUsedAt := none }

/-- A sign-up hook context for the freshly created user `u9`. -/
def signupCtx : AuthCtx :=
  { path := "/sign-up/email", user := some { id := "u9" } }

/-! ## Helper lemmas -/

/-- Inversion for the Better Auth adapter's `validateApiKey`: a
returned key always carries the discriminant `api_key` and the
hard-coded read-and-write permission list. -/
theorem BetterAuth.validateApiKey_ok_some
    (api : BetterAuthApi) (request : Request) (k : ApiKeyAuth)
    (h : BetterAuth.validateApiKey api request = .ok (some k)) :
    k.type = "api_key" ∧ k.permissions = [Perm.read, Perm.write] := by
  unfold BetterAuth.validateApiKey at h
  split at h
  · exact absurd h (by simp)
  · split at h
    · exact absurd h (by simp)
    · split at h
      · exact absurd h (by simp)
      · simp only [Except.ok.injEq, Option.some.injEq] at h
        subst h
        exact ⟨rfl, rfl⟩

/-- Inversion for the Better Auth adapter's `validateApiKey`: it only
fails by propagating a rejection of the provider's `verifyApiKey`
call. -/
theorem BetterAuth.validateApiKey_error
    (api : BetterAuthApi) (request : Request) (e : AuthError)
    (h : BetterAuth.validateApiKey api request = .error e) :
    ∃ pe hdr, e = .providerError pe ∧ api.verifyApiKey hdr = .error pe := by
  unfold BetterAuth.validateApiKey at h
  split at h
  · exact absurd h (by simp)
  · rename_i hdr _
    split at h
    · rename_i pe hpe
      exact ⟨pe, hdr, by simpa using h.symm, hpe⟩
    · split at h
      · exact absurd h (by simp)
      · exact absurd h (by simp)

/-- Inversion for the Better Auth adapter's `getSession`: a returned
session carries the discriminant `session`. -/
theorem BetterAuth.getSession_ok_some
    (api : BetterAuthApi) (request : Request) (s : SessionAuth)
    (h : BetterAuth.getSession api request = .ok (some s)) :
    s.type = "session" := by
  unfold BetterAuth.getSession at h
  split at h
  · exact absurd h (by simp)
  · exact absurd h (by simp)
  · simp only [Except.ok.injEq, Option.some.injEq] at h
    subst h
    rfl

/-- Inversion for the Better Auth adapter's `getSession`: it only fails
by propagating a rejection of the provider's `getSession` call. -/
theorem BetterAuth.getSession_error
    (api : BetterAuthApi) (request : Request) (e : AuthError)
    (h : BetterAuth.getSession api request = .error e) :
    ∃ pe, e = .providerError pe ∧ api.getSession request.headers = .error pe := by
  unfold BetterAuth.getSession at h
  split at h
  · rename_i pe hpe
    exact ⟨pe, by simpa using h.symm, hpe⟩
  · exact absurd h (by simp)
  · exact absurd h (by simp)

/-- Inversion for the Clerk adapter's `validateApiKey`: a returned key
carries the discriminant `api_key` and the matched row's stored
fields. -/
theorem Clerk.validateApiKey_discriminant
    (db : ClerkDb) (request : Request) (k : ApiKeyAuth)
    (h : Clerk.validateApiKey db request = .ok (some k)) :
    k.type = "api_key" := by
  unfold Clerk.validateApiKey at h
  split at h
  · exact absurd h (by simp)
  · split at h
    · exact absurd h (by simp)
    · simp only [Except.ok.injEq, Option.some.injEq] at h
      subst h
      rfl

/-- `requireSessionWith` succeeds with a given session exactly when the
underlying `getSession` resolves that session. -/
theorem requireSessionWith_ok_iff
    (g : Request → Except AuthError (Option SessionAuth)) (request : Request)
    (s : SessionAuth) :
    requireSessionWith g request = .ok s ↔ g request = .ok (some s) := by
  unfold requireSessionWith
  cases hg : g request with
  | error e => simp
  | ok o => cases o <;> simp

/-- `requireSessionWith` maps an absent session to `Unauthorized`. -/
theorem requireSessionWith_absent
    (g : Request → Except AuthError (Option SessionAuth)) (request : Request)
    (h : g request = .ok none) :
    requireSessionWith g request = .error .unauthorized := by
  unfold requireSessionWith
  rw [h]

/-- `requireSessionWith` propagates a failing session resolution. -/
theorem requireSessionWith_error
    (g : Request → Except AuthError (Option SessionAuth)) (request : Request)
    (e : AuthError) (h : g request = .error e) :
    requireSessionWith g request = .error e := by
  unfold requireSessionWith
  rw [h]

/-- `requireApiKeyWith` propagates a failing key resolution. -/
theorem requireApiKeyWith_error
    (v : Request → Except AuthError (Option ApiKeyAuth)) (request : Request)
    (e : AuthError) (h : v request = .error e) (p : Option Perm) :
    requireApiKeyWith v request p = .error e := by
  unfold requireApiKeyWith
  rw [h]

/-- `requireApiKeyWith` maps an absent key to `Unauthorized`, with or
without a permission argument. -/
theorem requireApiKeyWith_absent
    (v : Request → Except AuthError (Option ApiKeyAuth)) (request : Request)
    (h : v request = .ok none) (p : Option Perm) :
    requireApiKeyWith v request p = .error .unauthorized := by
  unfold requireApiKeyWith
  rw [h]

/-- With no permission argument, `requireApiKeyWith` returns any key the
underlying `validateApiKey` resolved. -/
theorem requireApiKeyWith_resolved_none
    (v : Request → Except AuthError (Option ApiKeyAuth)) (request : Request)
    (k : ApiKeyAuth) (h : v request = .ok (some k)) :
    requireApiKeyWith v request none = .ok k := by
  unfold requireApiKeyWith
  rw [h]

/-- With a permission argument, `requireApiKeyWith` on a resolved key
reduces to the membership test on the key's permission list. -/
theorem requireApiKeyWith_resolved
    (v : Request → Except AuthError (Option ApiKeyAuth)) (request : Request)
    (k : ApiKeyAuth) (h : v request = .ok (some k)) (p : Perm) :
    requireApiKeyWith v request (some p) =
      if p ∈ k.permissions then .ok k else .error .forbidden := by
  unfold requireApiKeyWith
  rw [h]
  by_cases hp : p ∈ k.permissions
  · simp [hp]
  · simp [hp]

/-- `requireApiKeyWith` succeeds only on a key the underlying
`validateApiKey` resolved. -/
theorem requireApiKeyWith_ok
    (v : Request → Except AuthError (Option ApiKeyAuth)) (request : Request)
    (p : Option Perm) (k : ApiKeyAuth)
    (h : requireApiKeyWith v request p = .ok k) :
    v request = .ok (some k) := by
  unfold requireApiKeyWith at h
  split at h
  · exact absurd h (by simp)
  · exact absurd h (by simp)
  · rename_i key hv
    cases p with
    | none =>
        simp only [Except.ok.injEq] at h
        subst h
        exact hv
    | some q =>
        simp only at h
        split at h
        · exact absurd h (by simp)
        · simp only [Except.ok.injEq] at h
          subst h
          exact hv

/-! ## Claims -/

/-- C1 (counterexample): under the Better Auth adapter, a valid API key
whose stored record has permission set read-only does NOT yield an
`ApiKeyAuth` with permissions exactly `[read]`, and
`requireApiKey(request, write)` does not fail with Forbidden: the
adapter hard-codes `[read, write]` (AUTH.md:423), so the write check
succeeds. -/
theorem betterAuth_ignores_stored_permissions :
    baReadKey.permissions = some [Perm.read] ∧
    BetterAuth.validateApiKey baDemoApi demoKeyRequest = .ok (some baDemoAuth) ∧
    baDemoAuth.permissions ≠ [Perm.read] ∧
    requireApiKeyWith (BetterAuth.validateApiKey baDemoApi) demoKeyRequest
      (some Perm.write) = .ok baDemoAuth :=
  ⟨rfl, rfl, by decide, rfl⟩

/-- C1 (amended): under the Clerk migration adapter, which returns the
stored permission list, every request presenting a valid API key whose
stored record has permission set exactly read yields an `ApiKeyAuth`
with permissions exactly `[read]`; `requireApiKey(request, write)`
fails with Forbidden and `requireApiKey(request, read)` succeeds. -/
theorem clerk_read_only_key_enforcement
    (db : ClerkDb) (request : Request) (hdr : String) (r : ApiKeyRecord)
    (hh : request.getHeader "x-api-key" = some hdr)
    (hr : db.apiKeys.find? (fun k => k.key = hdr) = some r)
    (hperm : r.permissions = [Perm.read]) :
    Clerk.validateApiKey db request =
      .ok (some { type := "api_key", keyId := r.id, name := r.name
                , permissions := [Perm.read], lastUsedAt := none }) ∧
    requireApiKeyWith (Clerk.validateApiKey db) request (some Perm.write) =
      .error .forbidden ∧
    requireApiKeyWith (Clerk.validateApiKey db) request (some Perm.read) =
      .ok { type := "api_key", keyId := r.id, name := r.name
          , permissions := [Perm.read], lastUsedAt := none } := by
  have hv : Clerk.validateApiKey db request =
      .ok (some { type := "api_key", keyId := r.id, name := r.name
                , permissions := [Perm.read], lastUsedAt := none }) := by
    unfold Clerk.validateApiKey
    simp only [hh, hr, hperm]
  refine ⟨hv, ?_, ?_⟩
  · rw [requireApiKeyWith_resolved _ _ _ hv Perm.write]
    simp
  · rw [requireApiKeyWith_resolved _ _ _ hv Perm.read]
    simp

/-- C1 (amended, witness): on the concrete database holding the
read-only key `abc123`, the write check is Forbidden and the read
check succeeds. -/
theorem clerk_read_only_key_enforcement_witness :
    requireApiKeyWith (Clerk.validateApiKey demoDb) demoKeyRequest
      (some Perm.write) = .error .forbidden ∧
    requireApiKeyWith (Clerk.validateApiKey demoDb) demoKeyRequest
      (some Perm.read) = .ok clerkDemoAuth := by
  have h := clerk_read_only_key_enforcement demoDb demoKeyRequest "abc123"
    readKeyRecord rfl rfl rfl
  exact ⟨h.2.1, h.2.2⟩

/-- C2: under the Better Auth adapter, every `ApiKeyAuth` that
`validateApiKey` returns has permissions exactly `[read, write]`
regardless of the stored record; hence `requireApiKey` succeeds for
either permission argument whenever a key validates, and its Forbidden
branch is unreachable. -/
theorem betterAuth_permissions_hardcoded
    (api : BetterAuthApi) (request : Request) :
    (∀ k, BetterAuth.validateApiKey api request = .ok (some k) →
        k.permissions = [Perm.read, Perm.write] ∧
        ∀ p : Perm,
          requireApiKeyWith (BetterAuth.validateApiKey api) request (some p) =
            .ok k) ∧
    ∀ p, requireApiKeyWith (BetterAuth.validateApiKey api) request p ≠
        .error .forbidden := by
  constructor
  · intro k hk
    have hperm := (BetterAuth.validateApiKey_ok_some api request k hk).2
    refine ⟨hperm, ?_⟩
    intro p
    rw [requireApiKeyWith_resolved _ _ _ hk p, hperm]
    cases p <;> simp
  · intro p hcontra
    cases hv : BetterAuth.validateApiKey api request with
    | error e =>
        rw [requireApiKeyWith_error _ _ _ hv p] at hcontra
        obtain ⟨pe, hdr, rfl, -⟩ :=
          BetterAuth.validateApiKey_error api request e hv
        simp at hcontra
    | ok o =>
        cases o with
        | none =>
            rw [requireApiKeyWith_absent _ _ hv p] at hcontra
            simp at hcontra
        | some k =>
            have hperm := (BetterAuth.validateApiKey_ok_some api request k hv).2
            cases p with
            | none =>
                rw [requireApiKeyWith_resolved_none _ _ _ hv] at hcontra
                simp at hcontra
            | some q =>
                rw [requireApiKeyWith_resolved _ _ _ hv q, hperm] at hcontra
                cases q <;> simp at hcontra

/-- C2 (witness): on the concrete instance whose stored key record is
read-only, the adapter returns `[read, write]` and the write check
succeeds. -/
theorem betterAuth_permissions_hardcoded_witness :
    baDemoAuth.permissions = [Perm.read, Perm.write] ∧
    requireApiKeyWith (BetterAuth.validateApiKey baDemoApi) demoKeyRequest
      (some Perm.write) = .ok baDemoAuth ∧
    requireApiKeyWith (BetterAuth.validateApiKey baDemoApi) demoKeyRequest
      (some Perm.read) ≠ .error .forbidden := by
  have h := betterAuth_permissions_hardcoded baDemoApi demoKeyRequest
  exact ⟨(h.1 baDemoAuth rfl).1, (h.1 baDemoAuth rfl).2 Perm.write,
    h.2 (some Perm.read)⟩

/-- C3: `requireApiKey` fails with Unauthorized when `validateApiKey`
returns absent; fails with Forbidden when a key validates but the
supplied permission is not in its permission list; otherwise returns
the validated `ApiKeyAuth`. -/
theorem requireApiKey_contract
    (v : Request → Except AuthError (Option ApiKeyAuth))
    (request : Request) (permission : Option Perm) :
    (v request = .ok none →
        requireApiKeyWith v request permission = .error .unauthorized) ∧
    (∀ k p, v request = .ok (some k) → permission = some p →
        p ∉ k.permissions →
        requireApiKeyWith v request permission = .error .forbidden) ∧
    (∀ k p, v request = .ok (some k) → permission = some p →
        p ∈ k.permissions →
        requireApiKeyWith v request permission = .ok k) ∧
    (∀ k, v request = .ok (some k) → permission = none →
        requireApiKeyWith v request permission = .ok k) := by
  refine ⟨?_, ?_, ?_, ?_⟩
  · intro h
    exact requireApiKeyWith_absent v request h permission
  · intro k p hv hp hmem
    subst hp
    rw [requireApiKeyWith_resolved v request k hv p]
    simp [hmem]
  · intro k p hv hp hmem
    subst hp
    rw [requireApiKeyWith_resolved v request k hv p]
    simp [hmem]
  · intro k hv hp
    subst hp
    exact requireApiKeyWith_resolved_none v request k hv

/-- C3 (witness): the three outcomes on concrete inputs: Unauthorized
with no key presented, Forbidden for a write check on the read-only
key, success for a read check on it. -/
theorem requireApiKey_contract_witness :
    requireApiKeyWith (Clerk.validateApiKey demoDb) emptyRequest
      (some Perm.read) = .error .unauthorized ∧
    requireApiKeyWith (Clerk.validateApiKey demoDb) demoKeyRequest
      (some Perm.write) = .error .forbidden ∧
    requireApiKeyWith (Clerk.validateApiKey demoDb) demoKeyRequest
      (some Perm.read) = .ok clerkDemoAuth := by
  refine ⟨?_, ?_, ?_⟩
  · exact (requireApiKey_contract (Clerk.validateApiKey demoDb) emptyRequest
      (some Perm.read)).1 rfl
  · exact (requireApiKey_contract (Clerk.validateApiKey demoDb) demoKeyRequest
      (some Perm.write)).2.1 clerkDemoAuth Perm.write rfl rfl (by decide)
  · exact (requireApiKey_contract (Clerk.validateApiKey demoDb) demoKeyRequest
      (some Perm.read)).2.2.1 clerkDemoAuth Perm.read rfl rfl (by decide)

/-- C4: a request presenting no session credential (the provider
resolves no session for its headers) and no `x-api-key` header gets
absent from `getSession` and `validateApiKey` without any error, and
Unauthorized from `requireSession` and `requireApiKey`. -/
theorem no_credential_all_absent
    (api : BetterAuthApi) (request : Request)
    (hs : api.getSession request.headers = .ok none)
    (hk : request.getHeader "x-api-key" = none) :
    BetterAuth.getSession api request = .ok none ∧
    BetterAuth.validateApiKey api request = .ok none ∧
    requireSessionWith (BetterAuth.getSession api) request =
      .error .unauthorized ∧
    ∀ p, requireApiKeyWith (BetterAuth.validateApiKey api) request p =
        .error .unauthorized := by
  have hg : BetterAuth.getSession api request = .ok none := by
    unfold BetterAuth.getSession
    rw [hs]
  have hv : BetterAuth.validateApiKey api request = .ok none := by
    unfold BetterAuth.validateApiKey
    rw [hk]
  exact ⟨hg, hv, requireSessionWith_absent _ _ hg,
    fun p => requireApiKeyWith_absent _ _ hv p⟩

/-- C4 (witness): the credential-less request against the concrete
instance. -/
theorem no_credential_all_absent_witness :
    BetterAuth.getSession baDemoApi emptyRequest = .ok none ∧
    BetterAuth.validateApiKey baDemoApi emptyRequest = .ok none ∧
    requireSessionWith (BetterAuth.getSession baDemoApi) emptyRequest =
      .error .unauthorized ∧
    requireApiKeyWith (BetterAuth.validateApiKey baDemoApi) emptyRequest none =
      .error .unauthorized := by
  have h := no_credential_all_absent baDemoApi emptyRequest rfl rfl
  exact ⟨h.1, h.2.1, h.2.2.1, h.2.2.2 none⟩

/-- C5 (counterexample): the adapters contain no `try`/`catch`, so a
provider call that rejects (a network error) is propagated across the
boundary unchanged: all four operations surface the provider-specific
error, which is none of canonical value, absent, Unauthorized,
Forbidden. -/
theorem provider_error_escapes_boundary :
    BetterAuth.getSession failingApi emptyRequest =
      .error (AuthError.providerError "ECONNREFUSED") ∧
    BetterAuth.validateApiKey failingApi demoKeyRequest =
      .error (AuthError.providerError "ECONNREFUSED") ∧
    requireSessionWith (BetterAuth.getSession failingApi) emptyRequest =
      .error (AuthError.providerError "ECONNREFUSED") ∧
    requireApiKeyWith (BetterAuth.validateApiKey failingApi) demoKeyRequest
      none = .error (AuthError.providerError "ECONNREFUSED") ∧
    AuthError.isBoundary (AuthError.providerError "ECONNREFUSED") = false :=
  ⟨rfl, rfl, rfl, rfl, rfl⟩

/-- C5 (amended): whenever the provider calls return rather than
reject, the four operations yield only a canonical auth value, absent,
Unauthorized, or Forbidden: the `get` operations never fail and the
`require` operations fail only with the two boundary errors. A
rejected provider call, however, is not caught and propagates. -/
theorem boundary_outcomes_total
    (api : BetterAuthApi) (request : Request)
    (hg : ∀ e, api.getSession request.headers ≠ .error e)
    (hv : ∀ s e, api.verifyApiKey s ≠ .error e) :
    (∀ e, BetterAuth.getSession api request ≠ .error e) ∧
    (∀ e, BetterAuth.validateApiKey api request ≠ .error e) ∧
    (∀ e, requireSessionWith (BetterAuth.getSession api) request = .error e →
        e = .unauthorized) ∧
    (∀ p e, requireApiKeyWith (BetterAuth.validateApiKey api) request p =
        .error e → e = .unauthorized ∨ e = .forbidden) := by
  have hg' : ∀ e, BetterAuth.getSession api request ≠ .error e := by
    intro e h
    obtain ⟨pe, -, hpe⟩ := BetterAuth.getSession_error api request e h
    exact hg pe hpe
  have hv' : ∀ e, BetterAuth.validateApiKey api request ≠ .error e := by
    intro e h
    obtain ⟨pe, hdr, -, hpe⟩ := BetterAuth.validateApiKey_error api request e h
    exact hv hdr pe hpe
  refine ⟨hg', hv', ?_, ?_⟩
  · intro e h
    cases hcase : BetterAuth.getSession api request with
    | error e' => exact absurd hcase (hg' e')
    | ok o =>
        cases o with
        | none =>
            rw [requireSessionWith_absent _ _ hcase] at h
            simp only [Except.error.injEq] at h
            exact h.symm
        | some s =>
            rw [(requireSessionWith_ok_iff _ _ s).mpr hcase] at h
            cases h
  · intro p e h
    cases hcase : BetterAuth.validateApiKey api request with
    | error e' => exact absurd hcase (hv' e')
    | ok o =>
        cases o with
        | none =>
            rw [requireApiKeyWith_absent _ _ hcase p] at h
            simp only [Except.error.injEq] at h
            exact Or.inl h.symm
        | some k =>
            cases p with
            | none =>
                rw [requireApiKeyWith_resolved_none _ _ _ hcase] at h
                cases h
            | some q =>
                rw [requireApiKeyWith_resolved _ _ _ hcase q] at h
                by_cases hm : q ∈ k.permissions
                · rw [if_pos hm] at h
                  cases h
                · rw [if_neg hm] at h
                  simp only [Except.error.injEq] at h
                  exact Or.inr h.symm

/-- C5 (amended, witness): the concrete non-rejecting instance never
surfaces a provider error. -/
theorem boundary_outcomes_total_witness :
    BetterAuth.getSession baDemoApi demoKeyRequest ≠
      .error (AuthError.providerError "ECONNREFUSED") ∧
    BetterAuth.validateApiKey baDemoApi demoKeyRequest ≠
      .error (AuthError.providerError "ECONNREFUSED") := by
  have h := boundary_outcomes_total baDemoApi demoKeyRequest
    (by intro e hcontra; simp [baDemoApi] at hcontra)
    (by
      intro s e hcontra
      unfold baDemoApi at hcontra
      simp only at hcontra
      split at hcontra <;> simp at hcontra)
  exact ⟨h.1 _, h.2.1 _⟩

/-- C6 (counterexample): the canonical interfaces declare no property
named `kind`; the discriminant property is named `type`
(AUTH.md:464, AUTH.md:478), and a concretely returned value carries
`type = "api_key"`. -/
theorem discriminant_field_named_type_not_kind :
    "kind" ∉ SessionAuth.fieldNames ∧
    "kind" ∉ ApiKeyAuth.fieldNames ∧
    "type" ∈ SessionAuth.fieldNames ∧
    "type" ∈ ApiKeyAuth.fieldNames ∧
    BetterAuth.validateApiKey baDemoApi demoKeyRequest = .ok (some baDemoAuth) ∧
    baDemoAuth.type = "api_key" :=
  ⟨by decide, by decide, by decide, by decide, rfl, rfl⟩

/-- C6 (amended): every `SessionAuth` returned by `getSession` or
`requireSession` carries the discriminant field `type = "session"`
with shape `(type, user (id, email, name?, image?), session (id,
expiresAt))`, and every `ApiKeyAuth` returned by `validateApiKey` or
`requireApiKey` carries the discriminant field `type = "api_key"` with
shape `(type, keyId, name, permissions, lastUsedAt?)` — the shapes
being the declared structures. -/
theorem discriminant_type_values
    (api : BetterAuthApi) (db : ClerkDb) (request : Request) :
    (∀ s, BetterAuth.getSession api request = .ok (some s) →
        s.type = "session") ∧
    (∀ s, requireSessionWith (BetterAuth.getSession api) request = .ok s →
        s.type = "session") ∧
    (∀ k, BetterAuth.validateApiKey api request = .ok (some k) →
        k.type = "api_key") ∧
    (∀ k, Clerk.validateApiKey db request = .ok (some k) →
        k.type = "api_key") ∧
    (∀ p k, requireApiKeyWith (BetterAuth.validateApiKey api) request p =
        .ok k → k.type = "api_key") ∧
    (∀ p k, requireApiKeyWith (Clerk.validateApiKey db) request p = .ok k →
        k.type = "api_key") := by
  refine ⟨?_, ?_, ?_, ?_, ?_, ?_⟩
  · exact fun s => BetterAuth.getSession_ok_some api request s
  · intro s h
    exact BetterAuth.getSession_ok_some api request s
      ((requireSessionWith_ok_iff _ _ s).mp h)
  · exact fun k h => (BetterAuth.validateApiKey_ok_some api request k h).1
  · exact fun k => Clerk.validateApiKey_discriminant db request k
  · intro p k h
    exact (BetterAuth.validateApiKey_ok_some api request k
      (requireApiKeyWith_ok _ _ p k h)).1
  · intro p k h
    exact Clerk.validateApiKey_discriminant db request k
      (requireApiKeyWith_ok _ _ p k h)

/-- C6 (amended, witness): concrete returned values under both adapters
carry the `type` discriminants. -/
theorem discriminant_type_values_witness :
    baDemoAuth.type = "api_key" ∧ clerkDemoAuth.type = "api_key" := by
  have h := discriminant_type_values baDemoApi demoDb demoKeyRequest
  exact ⟨h.2.2.1 baDemoAuth rfl, h.2.2.2.1 clerkDemoAuth rfl⟩

/-- C7: `requireSession` succeeds exactly when `getSession` on the same
request resolves a session, returning that identical `SessionAuth`;
when `getSession` resolves absent, `requireSession` fails with
Unauthorized. -/
theorem requireSession_contract
    (g : Request → Except AuthError (Option SessionAuth))
    (request : Request) :
    (∀ s, requireSessionWith g request = .ok s ↔ g request = .ok (some s)) ∧
    (g request = .ok none →
        requireSessionWith g request = .error .unauthorized) :=
  ⟨fun s => requireSessionWith_ok_iff g request s,
   fun h => requireSessionWith_absent g request h⟩

/-- C7 (witness): the concrete session instance: success on the
cookie-bearing request with the very session `getSession` resolves,
Unauthorized on the bare request. -/
theorem requireSession_contract_witness :
    requireSessionWith (BetterAuth.getSession sessionApi) sessionRequest =
      .ok demoSessionAuth ∧
    requireSessionWith (BetterAuth.getSession sessionApi) emptyRequest =
      .error .unauthorized :=
  ⟨((requireSession_contract (BetterAuth.getSession sessionApi)
      sessionRequest).1 demoSessionAuth).mpr rfl,
   (requireSession_contract (BetterAuth.getSession sessionApi)
      emptyRequest).2 rfl⟩

/-- C8: with the identity provider passed explicitly (unchanged state),
two `getSession` calls on the same request yield structurally
identical results; in particular a resolved session is resolved again
unchanged. -/
theorem getSession_idempotent_same_state
    (api : BetterAuthApi) (request : Request) (s : SessionAuth)
    (h : (getSessionTwice api request).1 = .ok (some s)) :
    (getSessionTwice api request).2 = .ok (some s) ∧
    (getSessionTwice api request).1 = (getSessionTwice api request).2 :=
  ⟨h, rfl⟩

/-- C8 (witness): both calls on the concrete cookie-bearing request
resolve the same `SessionAuth`. -/
theorem getSession_idempotent_same_state_witness :
    (getSessionTwice sessionApi sessionRequest).2 =
      .ok (some demoSessionAuth) ∧
    (getSessionTwice sessionApi sessionRequest).1 =
      (getSessionTwice sessionApi sessionRequest).2 :=
  getSession_idempotent_same_state sessionApi sessionRequest demoSessionAuth rfl

/-- C9: `requireApiKey` with no permission argument succeeds on every
request whose key validates, returning that key's `ApiKeyAuth`, for
any permission list the key carries. -/
theorem requireApiKey_no_permission_succeeds
    (v : Request → Except AuthError (Option ApiKeyAuth)) (request : Request)
    (k : ApiKeyAuth) (h : v request = .ok (some k)) :
    requireApiKeyWith v request none = .ok k :=
  requireApiKeyWith_resolved_none v request k h

/-- C9 (witness): the stored key with an empty permission list still
passes the permissionless check. -/
theorem requireApiKey_no_permission_succeeds_witness :
    clerkEmptyPermAuth.permissions = [] ∧
    requireApiKeyWith (Clerk.validateApiKey demoDb) emptyPermRequest none =
      .ok clerkEmptyPermAuth :=
  ⟨rfl, requireApiKey_no_permission_succeeds (Clerk.validateApiKey demoDb)
    emptyPermRequest clerkEmptyPermAuth rfl⟩

/-- C10: on a successful email sign-up (path `/sign-up/email` with a
created user) the after hook appends exactly one profile row
`(userId, role editor)`; the appended rows do not depend on the
existing table contents (a single insert, not a read-modify-write). -/
theorem signup_inserts_one_editor_profile
    (ctx : AuthCtx) (user : CtxUser) (profiles : List UserProfile)
    (hpath : ctx.path = "/sign-up/email") (huser : ctx.user = some user) :
    afterHook ctx profiles =
      profiles ++ [{ userId := user.id, role := "editor", preferences := none }] ∧
    (∀ ps, afterHook ctx ps = ps ++ afterHookInserted ctx) ∧
    afterHookInserted ctx =
      [{ userId := user.id, role := "editor", preferences := none }] ∧
    (afterHookInserted ctx).length = 1 := by
  have hins : afterHookInserted ctx =
      [{ userId := user.id, role := "editor", preferences := none }] := by
    unfold afterHookInserted
    rw [huser]
    simp [hpath]
  have hall : ∀ ps, afterHook ctx ps = ps ++ afterHookInserted ctx := by
    intro ps
    unfold afterHook afterHookInserted
    rw [huser]
    simp [hpath]
  refine ⟨?_, hall, hins, ?_⟩
  · rw [hall profiles, hins]
  · rw [hins]
    rfl

/-- C10 (witness): the concrete sign-up context appends the single
editor profile to an empty table. -/
theorem signup_inserts_one_editor_profile_witness :
    afterHook signupCtx [] =
      [{ userId := "u9", role := "editor", preferences := none }] ∧
    (afterHookInserted signupCtx).length = 1 := by
  have h := signup_inserts_one_editor_profile signupCtx { id := "u9" } []
    rfl rfl
  exact ⟨h.1, h.2.2.2⟩

end Aphex
